import Mathlib

/-!
Verification development for the KYC administrative console's fraud-signal
derivation layer.  The derivation functions scattered across the React pages
(`api.js` / FraudAlerts, `KycRequests.jsx`, `FraudDashboard.jsx`,
`KycUpload.jsx`, `AuditTrail.jsx`, `DocumentUpload.jsx`, the admin dashboards)
are embedded shallowly: JavaScript values appearing in backend payloads are
modelled by `JsVal` (numbers as rationals, strings as strings), absent /
null / undefined fields by `Option`, and a thrown `TypeError` by an `Option`
result of the affected function.  Strings are manipulated through their
character lists so that every definition is executable and kernel-evaluable.
-/

/-- A JavaScript value found in a backend payload field: a (finite) number or
a string.  JSON payloads cannot carry `NaN`, so numbers are rationals;
`NaN` arising from coercions is modelled by `Option.none` at use sites. -/
inductive JsVal where
  | num (q : ℚ)
  | str (s : String)
  deriving DecidableEq

/-- JavaScript truthiness of a `JsVal` (`0` and `""` are falsy). -/
def jsTruthy : JsVal → Bool
  | .num q => q != 0
  | .str s => s != ""

/-- Characters treated as whitespace (JS `\s` on the ASCII range). -/
def isWsChar (c : Char) : Bool := c.isWhitespace

/-- Length of a string in characters. -/
def strLen (s : String) : ℕ := s.data.length

/-- `s.slice(0, n)` on characters. -/
def strTake (s : String) (n : ℕ) : String := ⟨s.data.take n⟩

/-- `s.slice(n)` on characters. -/
def strDrop (s : String) (n : ℕ) : String := ⟨s.data.drop n⟩

/-- `s.slice(-n)`: the last `n` characters (the whole string if shorter). -/
def lastChars (s : String) (n : ℕ) : String := ⟨s.data.drop (s.data.length - n)⟩

/-- `"X".repeat(n)`. -/
def repeatX (n : ℕ) : String := ⟨List.replicate n 'X'⟩

/-- `s.replace(/\D/g, "")`: keep only decimal digits. -/
def digitsOnly (s : String) : String := ⟨s.data.filter Char.isDigit⟩

/-- `s.replace(/\s+/g, "")` / `s.replace(/\s/g, "")`: drop all whitespace. -/
def stripWs (s : String) : String := ⟨s.data.filter (fun c => !isWsChar c)⟩

/-- `s.trim()`: drop whitespace from both ends. -/
def trimWs (s : String) : String :=
  ⟨((s.data.dropWhile isWsChar).reverse.dropWhile isWsChar).reverse⟩

/-- `s.toLowerCase()` (character-wise, as the call sites only use ASCII). -/
def lowerStr (s : String) : String := ⟨s.data.map Char.toLower⟩

/-- Does `pat` occur at the start of `cs`? -/
def leadsWith : List Char → List Char → Bool
  | [], _ => true
  | _ :: _, [] => false
  | p :: ps, c :: cs => p == c && leadsWith ps cs

/-- Does `pat` occur anywhere in `cs`?  (`String.prototype.includes`.) -/
def hasSubList (cs pat : List Char) : Bool :=
  match cs with
  | [] => leadsWith pat []
  | _ :: rest => leadsWith pat cs || hasSubList rest pat

/-- `s.includes(pat)`. -/
def containsSub (s pat : String) : Bool := hasSubList s.data pat.data

/-- Numeric value of a list of decimal digits. -/
def digitsToNat (l : List Char) : ℕ :=
  l.foldl (fun a c => a * 10 + (c.toNat - 48)) 0

/-- Rational value of an integer part and a fractional part given as digits. -/
def decDigitsVal (intPart fracPart : List Char) : ℚ :=
  (digitsToNat intPart : ℚ) + (digitsToNat fracPart : ℚ) / ((10 : ℚ) ^ fracPart.length)

/-- Parse an unsigned decimal literal (`123`, `123.45`, `.5`, `12.`); `none`
models `NaN`.  Trailing garbage is rejected, as in JS `Number`. -/
def parseUnsignedDec (cs : List Char) : Option ℚ :=
  let intPart := cs.takeWhile Char.isDigit
  let rest := cs.drop intPart.length
  match rest with
  | [] => if intPart = [] then none else some (decDigitsVal intPart [])
  | '.' :: r =>
    let fracPart := r.takeWhile Char.isDigit
    if r.drop fracPart.length = [] then
      if intPart = [] ∧ fracPart = [] then none
      else some (decDigitsVal intPart fracPart)
    else none
  | _ => none

/-- JS `Number(string)`: trim, `""` is `0`, else a signed decimal literal;
`none` models `NaN`.  (Hex/exponent forms are not used by this codebase.) -/
def jsStrToNum (s : String) : Option ℚ :=
  let t := trimWs s
  if t = "" then some 0
  else
    match t.data with
    | '-' :: r => (parseUnsignedDec r).map Neg.neg
    | '+' :: r => parseUnsignedDec r
    | cs => parseUnsignedDec cs

/-- JS `Number(v)` on a payload value; `none` models `NaN`. -/
def jsToNum : JsVal → Option ℚ
  | .num q => some q
  | .str s => jsStrToNum s

/-- JS `String(v)`.  Exact for strings and integer numbers, which is all the
document-type call sites receive. -/
def jsToString : JsVal → String
  | .str s => s
  | .num q => if q.den = 1 then toString q.num else toString q

/-- `v.trim()`: defined only when `v` is a string; `none` models the
`TypeError` thrown when `.trim()` is called on a non-string. -/
def jsTrim : JsVal → Option String
  | .str s => some (trimWs s)
  | .num _ => none

/-- `parseFloat` on a string already reduced to digits and dots: read the
longest leading decimal literal; `none` models `NaN`. -/
def parseLeadingFloat (s : String) : Option ℚ :=
  let cs := s.data
  let intPart := cs.takeWhile Char.isDigit
  let rest := cs.drop intPart.length
  let fracPart :=
    match rest with
    | '.' :: r => r.takeWhile Char.isDigit
    | _ => []
  if intPart = [] ∧ fracPart = [] then none
  else some (decDigitsVal intPart fracPart)

/-- `s.replace(/[^\d.]/g, "")`. -/
def stripNonDigitDot (s : String) : String :=
  ⟨s.data.filter (fun c => c.isDigit || c == '.')⟩

/-! ## Identifier maskers -/

/-- `maskAadhaar` from `KycUpload.jsx`: falsy input gives `"-"`; otherwise
keep only digits, return the input unmodified when fewer than 8 digits
remain, else `first4 ++ "-XXXX-" ++ last4` of the digit string. -/
def maskAadhaar (n : String) : String :=
  if n = "" then "-"
  else
    let d := digitsOnly n
    if strLen d < 8 then n
    else strTake d 4 ++ "-XXXX-" ++ lastChars d 4

/-- `maskPan` from `KycUpload.jsx`: falsy input gives `"-"`; otherwise strip
whitespace, return the input unmodified unless exactly 10 characters remain,
else `first5 ++ "-XX" ++ last2`. -/
def maskPan (p : String) : String :=
  if p = "" then "-"
  else
    let s := stripWs p
    if strLen s ≠ 10 then p
    else strTake s 5 ++ "-XX" ++ lastChars s 2

/-- `maskNumber` from `KycRequests.jsx`: the generic list-view masker with
explicit visible-front/visible-back counts. -/
def maskNumber (numStr : String) (visibleFront visibleBack : ℕ) : String :=
  if numStr = "" then "N/A"
  else
    let s := stripWs numStr
    if strLen s ≤ visibleFront + visibleBack then s
    else
      let middle := repeatX (strLen s - visibleFront - visibleBack)
      strTake s visibleFront ++ middle ++ strDrop s (strLen s - visibleBack)

/-- `maskAadhaarUI` from `DocumentUpload.jsx`: `slice(0,4) + "-XXXX-" + slice(-4)`. -/
def maskAadhaarUI (n : String) : String :=
  if n = "" then "-" else strTake n 4 ++ "-XXXX-" ++ lastChars n 4

/-- `maskPanUI` from `DocumentUpload.jsx`: `slice(0,5) + "-XX" + slice(-2)`. -/
def maskPanUI (p : String) : String :=
  if p = "" then "-" else strTake p 5 ++ "-XX" ++ lastChars p 2

/-! ## Risk classifiers -/

/-- Result of `riskBadgeLabel` in `api.js` (FraudAlerts). -/
structure RiskBadge where
  label : String
  cls : String
  deriving DecidableEq

/-- `riskBadgeLabel` from `api.js`: `Number(score) || 0` collapses a missing
or non-numeric score (modelled by `none`) to `0`, then fixed thresholds. -/
def riskBadgeLabel (score : Option ℚ) : RiskBadge :=
  let n := score.getD 0
  if 70 < n then ⟨"High", "badge-high"⟩
  else if 30 < n then ⟨"Medium", "badge-medium"⟩
  else ⟨"Low", "badge-low"⟩

/-- `formatRisk` from `KycRequests.jsx`: risk words embedded in a string take
precedence; otherwise a numeric substring is classified by the thresholds;
missing or unclassifiable input is `"Low"`. -/
def formatRisk : Option JsVal → String
  | none => "Low"
  | some (.str s) =>
    if s = "" then "Low"
    else
      let v := lowerStr s
      if containsSub v "high" then "High"
      else if containsSub v "medium" || containsSub v "med" then "Medium"
      else if containsSub v "low" then "Low"
      else
        match parseLeadingFloat (stripNonDigitDot s) with
        | some numv => if 70 < numv then "High" else if 30 < numv then "Medium" else "Low"
        | none => "Low"
  | some (.num q) =>
    if 70 < q then "High" else if 30 < q then "Medium" else "Low"

/-- The inline risk classification in `FraudDashboard.jsx`
(`fs >= 71 ? "High" : fs >= 31 ? "Medium" : "Low"`). -/
def fraudDashboardRisk (fs : ℚ) : String :=
  if 71 ≤ fs then "High" else if 31 ≤ fs then "Medium" else "Low"

/-! ## Record model -/

/-- The nested `fraud_result` payload, with every field optional. -/
structure FraudResult where
  fraud_score : Option JsVal
  confidence : Option JsVal
  confidence_score : Option JsVal
  risk_score : Option JsVal
  match_score : Option JsVal
  similarity : Option JsVal
  flags_text : Option JsVal
  flags : Option (List String)
  flag_codes : Option (List String)
  reasons : Option (List String)
  reason_codes : Option (List String)
  reason : Option JsVal
  reason_text : Option JsVal
  description : Option JsVal
  message : Option JsVal
  document_type : Option JsVal
  deriving DecidableEq

/-- The empty `fraud_result` object (`{}`). -/
def FraudResult.empty : FraudResult :=
  ⟨none, none, none, none, none, none, none, none,
   none, none, none, none, none, none, none, none⟩

/-- A raw backend record, restricted to the fields the derivation layer reads.
Flag arrays are lists of strings (a non-string element is stringified by the
code and can never match a known code, so nothing is lost). -/
structure KycRecord where
  fraud_result : Option FraudResult
  fraud_score : Option JsVal
  confidence : Option JsVal
  score : Option JsVal
  flags : Option (List String)
  reason : Option JsVal
  reason_text : Option JsVal
  description : Option JsVal
  message : Option JsVal
  notes : Option JsVal
  document_type : Option JsVal
  doc_type : Option JsVal
  aadhaar_ocr : Option Unit
  pan_ocr : Option Unit
  deriving DecidableEq

/-- A record with every field absent. -/
def KycRecord.empty : KycRecord :=
  ⟨none, none, none, none, none, none, none, none, none, none, none, none, none, none⟩

/-- `r.fraud_result || {}`. -/
def KycRecord.fraudR (r : KycRecord) : FraudResult := r.fraud_result.getD FraudResult.empty

/-- Keep a field value only when it is JS-truthy. -/
def truthyVal : Option JsVal → Option JsVal
  | some v => if jsTruthy v then some v else none
  | none => none

/-- `detectDocType` from `api.js`. -/
def detectDocType (r : KycRecord) : String :=
  let fraud := r.fraudR
  match truthyVal fraud.document_type with
  | some v => lowerStr (jsToString v)
  | none =>
    match truthyVal r.document_type with
    | some v => lowerStr (jsToString v)
    | none =>
      match truthyVal r.doc_type with
      | some v => lowerStr (jsToString v)
      | none =>
        if r.aadhaar_ocr.isSome then "aadhaar"
        else if r.pan_ocr.isSome then "pan"
        else "document"

/-- `getFirstField` from `KycRequests.jsx`: a mapping (or a missing /
non-object mapping, modelled by `none`) probed by an ordered key list; the
first key whose value stringifies to a non-blank string wins. -/
def getFirstField (obj : Option (String → Option JsVal)) (keys : List String) : Option JsVal :=
  match obj with
  | none => none
  | some f =>
    keys.findSome? fun k =>
      match f k with
      | some v => if trimWs (jsToString v) ≠ "" then some v else none
      | none => none

/-! ## Confidence normalizer -/

/-- The `??`-chain of confidence-like fields in `extractConfidence`. -/
def confChain (r : KycRecord) : Option JsVal :=
  let fraud := r.fraudR
  fraud.confidence <|> fraud.confidence_score <|> fraud.risk_score <|>
    fraud.match_score <|> fraud.similarity <|> r.confidence <|> r.score

/-- `fraud.fraud_score ?? r.fraud_score` (before the `?? 0` default). -/
def fsChain (r : KycRecord) : Option JsVal :=
  (r.fraudR).fraud_score <|> r.fraud_score

/-- `Number(fraud.fraud_score ?? r.fraud_score ?? 0)`; `none` models `NaN`. -/
def fraudScoreNum (r : KycRecord) : Option ℚ :=
  match fsChain r with
  | none => some 0
  | some v => jsToNum v

/-- The three-tier fraud-score-derived confidence fallback.  A `NaN` score
fails both `> 70` and `> 30`, landing in the `60` tier. -/
def confTier (r : KycRecord) : ℤ :=
  match fraudScoreNum r with
  | some fs => if 70 < fs then 90 else if 30 < fs then 75 else 60
  | none => 60

/-- `extractConfidence` from `api.js`. -/
def extractConfidence (r : KycRecord) : ℤ :=
  match confChain r with
  | none => confTier r
  | some v =>
    if v = JsVal.str "" then confTier r
    else
      match jsToNum v with
      | none => confTier r
      | some c0 =>
        let c1 := if 0 < c0 ∧ c0 ≤ 1 then c0 * 100 else c0
        let c2 := min 100 (max 0 c1)
        if c2 ≤ 1 then confTier r else round c2

/-! ## Reason builder -/

/-- The risk labels that disqualify a `flags_text` from being a reason. -/
def riskWords : List String := ["low", "medium", "high"]

/-- The `add` closure in `buildRiskReason`: append a message unless present. -/
def addMsg (acc : List String) (msg : String) : List String :=
  if msg ∈ acc then acc else acc ++ [msg]

/-- `Array.prototype.join(", ")`. -/
def joinComma : List String → String
  | [] => ""
  | [a] => a
  | a :: b :: rest => a ++ ", " ++ joinComma (b :: rest)

/-- The filter applied to the fallback textual fields: keep a value only if
it is a string whose trim is non-empty (the untrimmed value is kept). -/
def textVal : Option JsVal → Option String
  | some (.str s) => if trimWs s ≠ "" then some s else none
  | _ => none

/-- `fraud.flags || fraud.flag_codes || fraud.reasons || fraud.reason_codes
|| r.flags`, lower-cased element-wise; a missing chain yields `[]`. -/
def flagsList (r : KycRecord) : List String :=
  let fraud := r.fraudR
  let flagsRaw := fraud.flags <|> fraud.flag_codes <|> fraud.reasons <|> fraud.reason_codes <|> r.flags
  (flagsRaw.getD []).map lowerStr

/-- The five sequential code checks of `buildRiskReason`, in source order. -/
def codeReasons (flags : List String) : List String :=
  let reasons : List String := []
  let reasons := if flags.contains "duplicate_submission" then addMsg reasons "Duplicate submission detected" else reasons
  let reasons := if flags.contains "name_mismatch" then addMsg reasons "Name on document does not closely match user input" else reasons
  let reasons := if flags.contains "duplicate_aadhaar" then addMsg reasons "Duplicate Aadhaar detected" else reasons
  let reasons := if flags.contains "duplicate_pan" then addMsg reasons "Duplicate PAN detected" else reasons
  let reasons := if flags.contains "aadhaar_pan_duplicate" then addMsg reasons "Aadhaar/PAN matches an existing record (duplicate)" else reasons
  reasons

/-- The textual fallback fields of `buildRiskReason`, in source order. -/
def textFields (r : KycRecord) : List (Option JsVal) :=
  let fraud := r.fraudR
  [fraud.reason, fraud.reason_text, fraud.description, fraud.message,
   r.reason, r.reason_text, r.description, r.message, r.notes]

/-- `buildRiskReason` after the `flags_text` shortcut did not fire. -/
def riskReasonRest (r : KycRecord) : String :=
  let reasons := codeReasons (flagsList r)
  if reasons ≠ [] then joinComma reasons
  else
    let texts := (textFields r).filterMap textVal
    if texts ≠ [] then joinComma texts
    else "No anomalies detected for this KYC submission"

/-- `buildRiskReason` from `api.js`.  `none` models the `TypeError` thrown by
`fraud.flags_text.trim()` when `flags_text` is a truthy non-string. -/
def buildRiskReason (r : KycRecord) : Option String :=
  let fraud := r.fraudR
  match fraud.flags_text with
  | none => some (riskReasonRest r)
  | some v =>
    if jsTruthy v then
      match jsTrim v with
      | none => none
      | some t =>
        if t = "" then some (riskReasonRest r)
        else if riskWords.contains (lowerStr t) then some (riskReasonRest r)
        else some t
    else some (riskReasonRest r)

/-! ## Timestamp formatters -/

/-- The local-time components a parsed `Date` exposes (month is 0-based as in
JS `getMonth`). -/
structure DateParts where
  getFullYear : ℤ
  getMonth : ℕ
  getDate : ℕ
  getHours : ℕ
  getMinutes : ℕ
  getSeconds : ℕ
  deriving DecidableEq

/-- A timestamp argument: missing (falsy), non-empty but unparseable, or a
value parsing to local-time components. -/
inductive TsInput where
  | missing
  | unparseable (raw : String)
  | parsed (d : DateParts)
  deriving DecidableEq

/-- `String(n).padStart(2, "0")`. -/
def padStart2 (s : String) : String :=
  if 2 ≤ strLen s then s else ⟨List.replicate (2 - strLen s) '0'⟩ ++ s

/-- `formatExact` from `AuditTrail.jsx`: missing input is an em-dash, an
invalid date echoes the raw input, else the fixed 12-hour format. -/
def formatExact : TsInput → String
  | .missing => "—"
  | .unparseable raw => raw
  | .parsed d =>
    let day := padStart2 (toString d.getDate)
    let month := padStart2 (toString (d.getMonth + 1))
    let year := toString d.getFullYear
    let minutes := padStart2 (toString d.getMinutes)
    let seconds := padStart2 (toString d.getSeconds)
    let ampm := if 12 ≤ d.getHours then "PM" else "AM"
    let h1 := d.getHours % 12
    let h2 := if h1 = 0 then 12 else h1
    let hours := padStart2 (toString h2)
    day ++ "/" ++ month ++ "/" ++ year ++ " " ++ hours ++ ":" ++ minutes ++ ":" ++ seconds ++ " " ++ ampm

/-- `formatDate` from `api.js` (FraudAlerts).  It has no validity check: on an
invalid date every component accessor yields `NaN`, `String(NaN).padStart(2,
"0")` is `"NaN"`, `NaN % 12 || 12` is `12` and `NaN >= 12` is false, so the
rendered string is the fixed `NaN` placeholder below. -/
def formatDate : TsInput → String
  | .missing => "—"
  | .unparseable _ => "NaN/NaN/NaN 12:NaN:NaN AM"
  | .parsed d =>
    let day := padStart2 (toString d.getDate)
    let month := padStart2 (toString (d.getMonth + 1))
    let year := toString d.getFullYear
    let minutes := padStart2 (toString d.getMinutes)
    let seconds := padStart2 (toString d.getSeconds)
    let ampm := if 12 ≤ d.getHours then "PM" else "AM"
    let h1 := d.getHours % 12
    let h2 := if h1 = 0 then 12 else h1
    let hours := padStart2 (toString h2)
    day ++ "/" ++ month ++ "/" ++ year ++ " " ++ hours ++ ":" ++ minutes ++ ":" ++ seconds ++ " " ++ ampm

/-! ## Aggregate fallback -/

/-- `r?.fraud_result?.fraud_score || 0`: a missing (or falsy) score is `0`. -/
def fsOrZero (o : Option ℚ) : ℚ := o.getD 0

/-- Accumulator of the `forEach` loop in `computeFallback`. -/
structure FallbackAcc where
  low : ℕ
  medium : ℕ
  high : ℕ
  verified : ℕ
  unverified : ℕ
  deriving DecidableEq

/-- One `forEach` step of `computeFallback` in `KycRequests.jsx`. -/
def fallbackStep (a : FallbackAcc) (o : Option ℚ) : FallbackAcc :=
  let fs := fsOrZero o
  let a1 :=
    if 70 < fs then { a with high := a.high + 1 }
    else if 30 < fs then { a with medium := a.medium + 1 }
    else { a with low := a.low + 1 }
  if 30 < fs then { a1 with unverified := a1.unverified + 1 }
  else { a1 with verified := a1.verified + 1 }

/-- The aggregate shape returned by `computeFallback`. -/
structure Aggregate where
  riskScore : ℤ
  low : ℕ
  medium : ℕ
  high : ℕ
  verified : ℕ
  unverified : ℕ
  deriving DecidableEq

/-- `computeFallback` from `KycRequests.jsx`, over the per-record fraud
scores (`none` = record without a score). -/
def computeFallback (recordsList : List (Option ℚ)) : Aggregate :=
  let a := recordsList.foldl fallbackStep ⟨0, 0, 0, 0, 0⟩
  let riskScore : ℤ :=
    if recordsList.length = 0 then 0
    else round ((recordsList.foldl (fun acc o => acc + fsOrZero o) 0) / (recordsList.length : ℚ))
  ⟨riskScore, a.low, a.medium, a.high, a.verified, a.unverified⟩

/-- `computeAvg` from `FraudDashboard.jsx`. -/
def computeAvg (records : List (Option ℚ)) : ℤ :=
  if records.length = 0 then 0
  else round ((records.foldl (fun acc o => acc + fsOrZero o) 0) / (records.length : ℚ))

/-! ## Approve / reject / flag state updates -/

/-- A record as held in the dashboards' in-memory lists, restricted to the
fields those components render. -/
structure AdminRecord where
  _id : String
  status : Option String
  user_name : Option String
  aadhaar_masked : Option String
  pan_masked : Option String
  fraud_result : Option FraudResult
  timestamp : Option String
  deriving DecidableEq

/-- The status written by `doAction` in `KycRequests.jsx` for each action. -/
def actionStatus (action : String) : String :=
  if action = "approve" then "Approved"
  else if action = "reject" then "Rejected"
  else "Flagged"

/-- The `setRecords` updater of `doAction` in `KycRequests.jsx`. -/
def doActionUpdate (records : List AdminRecord) (id : String) (action : String) : List AdminRecord :=
  records.map fun r => if r._id = id then { r with status := some (actionStatus action) } else r

/-- The `setKycData` updater of `approve` in `AdminDashboard.jsx` (and of
`onApprove` in `KycDashboard.jsx`). -/
def approveUpdate (records : List AdminRecord) (id : String) : List AdminRecord :=
  records.map fun r => if r._id = id then { r with status := some "Approved" } else r

/-- The `setKycData` updater of `reject` in `AdminDashboard.jsx` (and of
`onReject` in `KycDashboard.jsx`). -/
def rejectUpdate (records : List AdminRecord) (id : String) : List AdminRecord :=
  records.map fun r => if r._id = id then { r with status := some "Rejected" } else r

/-! ## Spec-side definitions

These definitions follow the wording of the specification (not the source)
and are compared against the source-derived definitions above. -/

/-- Spec wording of the national-ID mask: strip non-digit characters; with
fewer than 8 digits the input is returned unmodified; else
`firstFour ++ "-XXXX-" ++ lastFour` of the digit-only string. -/
def specMaskNational (n : String) : String :=
  let d := digitsOnly n
  if strLen d < 8 then n else strTake d 4 ++ "-XXXX-" ++ lastChars d 4

/-- Spec wording of the tax-ID mask: strip whitespace; exactly 10 characters
give `first5 ++ "-XX" ++ last2`, any other length returns the input. -/
def specMaskTax (p : String) : String :=
  let s := stripWs p
  if strLen s = 10 then strTake s 5 ++ "-XX" ++ lastChars s 2 else p

/-- Zero-pad a number to two digits, as the spec requires of each component. -/
def pad2Nat (n : ℕ) : String := padStart2 (toString n)

/-- The 12-hour clock value of a 24-hour value, with hour 0 displayed as 12. -/
def twelveHour (h : ℕ) : ℕ := if h % 12 = 0 then 12 else h % 12

/-- AM/PM as the spec assigns it from the 24-hour value. -/
def meridiem (h : ℕ) : String := if 12 ≤ h then "PM" else "AM"

/-- Spec wording of the fixed timestamp format `DD/MM/YYYY hh:mm:ss AM|PM`. -/
def renderTimestamp (d : DateParts) : String :=
  pad2Nat d.getDate ++ "/" ++ pad2Nat (d.getMonth + 1) ++ "/" ++ toString d.getFullYear ++ " " ++
  pad2Nat (twelveHour d.getHours) ++ ":" ++ pad2Nat d.getMinutes ++ ":" ++ pad2Nat d.getSeconds ++
  " " ++ meridiem d.getHours

/-- Spec wording of the confidence normalizer: the first confidence-like
field, treated as absent when empty or non-numeric; a found numeric value is
scaled out of (0,1], clamped to [0,100], replaced by the three-tier
fraud-score fallback when still degenerate (≤ 1), else rounded. -/
def specConfidence (r : KycRecord) : ℤ :=
  match (confChain r).bind (fun v => if v = JsVal.str "" then none else jsToNum v) with
  | none => confTier r
  | some c =>
    let scaled := if 0 < c ∧ c ≤ 1 then c * 100 else c
    let clamped := min 100 (max 0 scaled)
    if clamped ≤ 1 then confTier r else round clamped

/-- The recognized flag codes and their fixed sentences, in the fixed
evaluation order of the reason builder. -/
def flagSentencePairs : List (String × String) :=
  [("duplicate_submission", "Duplicate submission detected"),
   ("name_mismatch", "Name on document does not closely match user input"),
   ("duplicate_aadhaar", "Duplicate Aadhaar detected"),
   ("duplicate_pan", "Duplicate PAN detected"),
   ("aadhaar_pan_duplicate", "Aadhaar/PAN matches an existing record (duplicate)")]

/-- Spec wording of reason clauses (2)-(4): recognized codes mapped to their
sentences in fixed order, each at most once; else the non-empty free-text
fields joined; else the fixed default. -/
def specReasonFallback (r : KycRecord) : String :=
  let sentences := (flagSentencePairs.filter (fun p => (flagsList r).contains p.1)).map (fun p => p.2)
  if sentences ≠ [] then joinComma sentences
  else
    let texts := (textFields r).filterMap textVal
    if texts ≠ [] then joinComma texts
    else "No anomalies detected for this KYC submission"

/-- Spec wording of the reason builder: a non-empty trimmed string
`flags_text` that is not a bare risk label is returned verbatim, else the
fallback clauses apply. -/
def specRiskReason (r : KycRecord) : String :=
  match (r.fraudR).flags_text with
  | some (JsVal.str s) =>
    if trimWs s ≠ "" ∧ ¬ riskWords.contains (lowerStr (trimWs s)) then trimWs s
    else specReasonFallback r
  | _ => specReasonFallback r

/-- Records whose `flags_text` cannot make `buildRiskReason` throw: the field
is absent, a string, or falsy. -/
def flagsTextOkB (r : KycRecord) : Bool :=
  match (r.fraudR).flags_text with
  | some (JsVal.num q) => q == 0
  | _ => true

/-- The masking-safety property of the spec: every character of the masked
output is a mask character or comes from the visible prefix or suffix of the
(sanitized) identifier. -/
def maskedWithin (pre suf : ℕ) (source out : String) : Prop :=
  ∀ c ∈ out.data, c = 'X' ∨ c = '-' ∨ c ∈ (strTake source pre).data ∨ c ∈ (lastChars source suf).data

instance (pre suf : ℕ) (source out : String) : Decidable (maskedWithin pre suf source out) := by
  unfold maskedWithin
  infer_instance

/-! ## Concrete records used by the claims -/

/-- A record carrying only a record-level fraud score of 80. -/
def confFsRec : KycRecord := { KycRecord.empty with fraud_score := some (.num 80) }

/-- A record carrying only a fractional confidence of 0.85. -/
def confFracRec : KycRecord := { KycRecord.empty with confidence := some (.num (17 / 20)) }

/-- A record with a degenerate confidence of 0.005 and a fraud score of 80. -/
def confDegenRec : KycRecord :=
  { KycRecord.empty with confidence := some (.num (1 / 200)), fraud_score := some (.num 80) }

/-- A fraud payload whose `flags_text` is the (truthy) number 5. -/
def badFlagsFR : FraudResult := { FraudResult.empty with flags_text := some (.num 5) }

/-- A record whose `flags_text` holds a truthy non-string value. -/
def badFlagsTextRec : KycRecord := { KycRecord.empty with fraud_result := some badFlagsFR }

/-- A fraud payload with a risk-label `flags_text` and one duplicate-PAN flag. -/
def wFlagFR : FraudResult :=
  { FraudResult.empty with flags_text := some (.str "high"), flags := some ["duplicate_pan"] }

/-- A record exercising the risk-label skip and the code mapping. -/
def wFlagRec : KycRecord := { KycRecord.empty with fraud_result := some wFlagFR }

/-- A pending dashboard record with id `"a"`. -/
def wrec1 : AdminRecord := ⟨"a", some "Pending", some "Alice", none, none, none, none⟩

/-- The record `wrec1` after approval. -/
def wrec1new : AdminRecord := ⟨"a", some "Approved", some "Alice", none, none, none, none⟩

/-- A pending dashboard record with id `"b"`. -/
def wrec2 : AdminRecord := ⟨"b", some "Pending", some "Bob", none, none, none, none⟩

/-! ## Helper lemmas -/

/-- The sequential if-chain of `buildRiskReason` equals a filter-map over the
ordered code/sentence table. -/
theorem codeReasons_eq (flags : List String) :
    codeReasons flags =
      (flagSentencePairs.filter (fun p => flags.contains p.1)).map (fun p => p.2) := by
  unfold codeReasons flagSentencePairs
  by_cases hA : "duplicate_submission" ∈ flags <;>
  by_cases hB : "name_mismatch" ∈ flags <;>
  by_cases hC : "duplicate_aadhaar" ∈ flags <;>
  by_cases hD : "duplicate_pan" ∈ flags <;>
  by_cases hE : "aadhaar_pan_duplicate" ∈ flags <;>
    simp [addMsg, hA, hB, hC, hD, hE]

/-- A string append with a non-empty left part is non-empty. -/
theorem strAppend_ne_left (a b : String) (h : a ≠ "") : a ++ b ≠ "" := by
  intro he
  apply h
  have hd : a.data ++ b.data = ([] : List Char) := congrArg String.data he
  rcases List.append_eq_nil.mp hd with ⟨h1, _⟩
  cases a
  simp_all

/-- Joining a non-empty list of non-empty strings is non-empty. -/
theorem joinComma_ne (l : List String) (h1 : l ≠ []) (h2 : ∀ x ∈ l, x ≠ "") :
    joinComma l ≠ "" := by
  match l with
  | [] => exact absurd rfl h1
  | [a] => exact h2 a (by simp)
  | a :: b :: t =>
    show a ++ ", " ++ joinComma (b :: t) ≠ ""
    exact strAppend_ne_left _ _ (strAppend_ne_left _ _ (h2 a (by simp)))

/-- A value passing the free-text filter is a non-empty string. -/
theorem textVal_ne (o : Option JsVal) (x : String) (h : textVal o = some x) : x ≠ "" := by
  match o with
  | none => simp [textVal] at h
  | some (.num q) => simp [textVal] at h
  | some (.str s) =>
    by_cases hs : trimWs s ≠ ""
    · simp [textVal, hs] at h
      subst h
      intro hx
      exact hs (by rw [hx]; rfl)
    · simp [textVal, hs] at h

/-- The fallback part of the reason builder matches its spec wording. -/
theorem rest_eq (r : KycRecord) : riskReasonRest r = specReasonFallback r := by
  unfold riskReasonRest specReasonFallback
  rw [codeReasons_eq]

/-- Every mapped flag sentence is non-empty. -/
theorem sentences_ne (r : KycRecord) (x : String)
    (hx : x ∈ (flagSentencePairs.filter (fun p => (flagsList r).contains p.1)).map (fun p => p.2)) :
    x ≠ "" := by
  rcases List.mem_map.mp hx with ⟨p, hp, he⟩
  have hp2 := List.mem_of_mem_filter hp
  subst he
  fin_cases hp2 <;> decide

/-- The reason fallback never produces the empty string. -/
theorem fallback_ne (r : KycRecord) : specReasonFallback r ≠ "" := by
  unfold specReasonFallback
  by_cases hs : (flagSentencePairs.filter (fun p => (flagsList r).contains p.1)).map (fun p => p.2) = []
  · simp only [hs, ne_eq, not_true_eq_false, if_false, reduceIte]
    by_cases ht : (textFields r).filterMap textVal = []
    · simp [ht]
    · simp only [ht, ne_eq, not_false_eq_true, if_true, reduceIte]
      refine joinComma_ne _ ht ?_
      intro x hx
      rcases List.mem_filterMap.mp hx with ⟨o, _, ho⟩
      exact textVal_ne o x ho
  · simp only [hs, ne_eq, not_false_eq_true, if_true, reduceIte]
    exact joinComma_ne _ hs (fun x hx => sentences_ne r x hx)

/-- A member of a list no longer than the two visible windows lies in the
front window or the tail window. -/
theorem mem_take_or_tail (l : List Char) (f b : ℕ) (hle : l.length ≤ f + b) (c : Char)
    (hc : c ∈ l) : c ∈ l.take f ∨ c ∈ l.drop (l.length - b) := by
  rw [← List.take_append_drop f l] at hc
  rcases List.mem_append.mp hc with h | h
  · exact Or.inl h
  · right
    have hdrop : l.drop f = (l.drop (l.length - b)).drop (f - (l.length - b)) := by
      rw [List.drop_drop]
      congr 1
      omega
    rw [hdrop] at h
    exact List.mem_of_mem_drop h

/-- The generic masker only shows mask characters and the visible windows. -/
theorem maskNumber_within (s : String) (f b : ℕ) (hs : s ≠ "") :
    maskedWithin f b (stripWs s) (maskNumber s f b) := by
  intro c hc
  rw [maskNumber, if_neg hs] at hc
  by_cases hlen : strLen (stripWs s) ≤ f + b
  · rw [if_pos hlen] at hc
    rcases mem_take_or_tail (stripWs s).data f b hlen c hc with h | h
    · exact Or.inr (Or.inr (Or.inl h))
    · exact Or.inr (Or.inr (Or.inr h))
  · rw [if_neg hlen] at hc
    have hd : (strTake (stripWs s) f ++ repeatX (strLen (stripWs s) - f - b) ++
        strDrop (stripWs s) (strLen (stripWs s) - b)).data =
        (strTake (stripWs s) f).data ++ (repeatX (strLen (stripWs s) - f - b)).data ++
        (strDrop (stripWs s) (strLen (stripWs s) - b)).data := rfl
    rw [hd] at hc
    rcases List.mem_append.mp hc with h | h
    · rcases List.mem_append.mp h with h2 | h2
      · exact Or.inr (Or.inr (Or.inl h2))
      · exact Or.inl (List.eq_of_mem_replicate h2)
    · exact Or.inr (Or.inr (Or.inr h))

/-- The upload-page Aadhaar masker only shows the first and last 4 characters. -/
theorem maskAadhaarUI_within (n : String) : maskedWithin 4 4 n (maskAadhaarUI n) := by
  intro c hc
  by_cases hn : n = ""
  · subst hn
    simp [maskAadhaarUI] at hc
    exact Or.inr (Or.inl hc)
  · rw [maskAadhaarUI, if_neg hn] at hc
    have hd : (strTake n 4 ++ "-XXXX-" ++ lastChars n 4).data =
        (strTake n 4).data ++ "-XXXX-".data ++ (lastChars n 4).data := rfl
    rw [hd] at hc
    rcases List.mem_append.mp hc with h | h
    · rcases List.mem_append.mp h with h2 | h2
      · exact Or.inr (Or.inr (Or.inl h2))
      · have h4 : c ∈ ['-', 'X', 'X', 'X', 'X', '-'] := h2
        simp at h4
        tauto
    · exact Or.inr (Or.inr (Or.inr h))

/-- The upload-page PAN masker only shows the first 5 and last 2 characters. -/
theorem maskPanUI_within (p : String) : maskedWithin 5 2 p (maskPanUI p) := by
  intro c hc
  by_cases hp : p = ""
  · subst hp
    simp [maskPanUI] at hc
    exact Or.inr (Or.inl hc)
  · rw [maskPanUI, if_neg hp] at hc
    have hd : (strTake p 5 ++ "-XX" ++ lastChars p 2).data =
        (strTake p 5).data ++ "-XX".data ++ (lastChars p 2).data := rfl
    rw [hd] at hc
    rcases List.mem_append.mp hc with h | h
    · rcases List.mem_append.mp h with h2 | h2
      · exact Or.inr (Or.inr (Or.inl h2))
      · have h4 : c ∈ ['-', 'X', 'X'] := h2
        simp at h4
        tauto
    · exact Or.inr (Or.inr (Or.inr h))

/-- With at least 8 digits, the strict Aadhaar masker only shows the first
and last 4 digits of the digit-only string. -/
theorem maskAadhaar_within (n : String) (hlen : 8 ≤ strLen (digitsOnly n)) :
    maskedWithin 4 4 (digitsOnly n) (maskAadhaar n) := by
  intro c hc
  have hn : n ≠ "" := by
    intro he
    subst he
    simp [digitsOnly, strLen] at hlen
  rw [maskAadhaar, if_neg hn, if_neg (by omega)] at hc
  have hd : (strTake (digitsOnly n) 4 ++ "-XXXX-" ++ lastChars (digitsOnly n) 4).data =
      (strTake (digitsOnly n) 4).data ++ "-XXXX-".data ++ (lastChars (digitsOnly n) 4).data := rfl
  rw [hd] at hc
  rcases List.mem_append.mp hc with h | h
  · rcases List.mem_append.mp h with h2 | h2
    · exact Or.inr (Or.inr (Or.inl h2))
    · have h4 : c ∈ ['-', 'X', 'X', 'X', 'X', '-'] := h2
      simp at h4
      tauto
  · exact Or.inr (Or.inr (Or.inr h))

/-- With exactly 10 post-whitespace characters, the strict PAN masker only
shows the first 5 and last 2 of them. -/
theorem maskPan_within (p : String) (hlen : strLen (stripWs p) = 10) :
    maskedWithin 5 2 (stripWs p) (maskPan p) := by
  intro c hc
  have hp : p ≠ "" := by
    intro he
    subst he
    simp [stripWs, strLen] at hlen
  rw [maskPan, if_neg hp, if_neg (by omega)] at hc
  have hd : (strTake (stripWs p) 5 ++ "-XX" ++ lastChars (stripWs p) 2).data =
      (strTake (stripWs p) 5).data ++ "-XX".data ++ (lastChars (stripWs p) 2).data := rfl
  rw [hd] at hc
  rcases List.mem_append.mp hc with h | h
  · rcases List.mem_append.mp h with h2 | h2
    · exact Or.inr (Or.inr (Or.inl h2))
    · have h4 : c ∈ ['-', 'X', 'X'] := h2
      simp at h4
      tauto
  · exact Or.inr (Or.inr (Or.inr h))

/-- The `forEach` fold of `computeFallback` counts each bucket and the
verified/unverified split as predicate counts over the score list. -/
theorem fallback_counts (l : List (Option ℚ)) : ∀ a : FallbackAcc,
    (l.foldl fallbackStep a).high = a.high + l.countP (fun o => decide (70 < fsOrZero o)) ∧
    (l.foldl fallbackStep a).medium = a.medium + l.countP (fun o => decide (30 < fsOrZero o ∧ fsOrZero o ≤ 70)) ∧
    (l.foldl fallbackStep a).low = a.low + l.countP (fun o => decide (fsOrZero o ≤ 30)) ∧
    (l.foldl fallbackStep a).verified = a.verified + l.countP (fun o => decide (fsOrZero o ≤ 30)) ∧
    (l.foldl fallbackStep a).unverified = a.unverified + l.countP (fun o => decide (30 < fsOrZero o)) := by
  induction l with
  | nil => intro a; simp
  | cons x t ih =>
    intro a
    obtain ⟨ih1, ih2, ih3, ih4, ih5⟩ := ih (fallbackStep a x)
    by_cases h70 : 70 < fsOrZero x <;> by_cases h30 : 30 < fsOrZero x
    · refine ⟨?_, ?_, ?_, ?_, ?_⟩ <;>
        simp only [List.foldl_cons, List.countP_cons, ih1, ih2, ih3, ih4, ih5] <;>
        simp [fallbackStep, h70, h30, not_le.mpr h70, not_le.mpr h30] <;> omega
    · exact absurd (by linarith) h30
    · refine ⟨?_, ?_, ?_, ?_, ?_⟩ <;>
        simp only [List.foldl_cons, List.countP_cons, ih1, ih2, ih3, ih4, ih5] <;>
        simp [fallbackStep, h70, h30, not_lt.mp h70, not_le.mpr h30] <;> omega
    · refine ⟨?_, ?_, ?_, ?_, ?_⟩ <;>
        simp only [List.foldl_cons, List.countP_cons, ih1, ih2, ih3, ih4, ih5] <;>
        simp [fallbackStep, h70, h30, not_lt.mp h70, not_lt.mp h30] <;> omega

/-- The score-summing fold is the list sum. -/
theorem foldl_add_fs (l : List (Option ℚ)) : ∀ c : ℚ,
    l.foldl (fun acc o => acc + fsOrZero o) c = c + (l.map fsOrZero).sum := by
  induction l with
  | nil => intro c; simp
  | cons x t ih =>
    intro c
    simp only [List.foldl_cons, List.map_cons, List.sum_cons, ih]
    ring

/-- `riskBadgeLabel` answers `"High"` exactly above 70. -/
theorem riskLabel_high_iff (q : ℚ) : (riskBadgeLabel (some q)).label = "High" ↔ 70 < q := by
  unfold riskBadgeLabel
  by_cases h70 : 70 < q
  · simp [h70]
  · by_cases h30 : 30 < q <;> simp [h70, h30]

/-- `riskBadgeLabel` answers `"Medium"` exactly on (30, 70]. -/
theorem riskLabel_medium_iff (q : ℚ) : (riskBadgeLabel (some q)).label = "Medium" ↔ 30 < q ∧ q ≤ 70 := by
  unfold riskBadgeLabel
  by_cases h70 : 70 < q
  · simp [h70]
  · by_cases h30 : 30 < q
    · simp [h70, h30, not_lt.mp h70]
    · simp [h70, h30]

/-- `riskBadgeLabel` answers `"Low"` exactly at or below 30. -/
theorem riskLabel_low_iff (q : ℚ) : (riskBadgeLabel (some q)).label = "Low" ↔ q ≤ 30 := by
  unfold riskBadgeLabel
  by_cases h70 : 70 < q
  · simp [h70]
    linarith
  · by_cases h30 : 30 < q
    · simp [h70, h30]
    · simp [h70, h30, not_lt.mp h30]

/-! ## Claim theorems -/

/-- C1: for every (integer) fraud score `s`, each numeric risk classification
site — `riskBadgeLabel` in `api.js`, the numeric branch of `formatRisk` in
`KycRequests.jsx`, and the inline classification of `FraudDashboard.jsx` —
answers `High` iff `s > 70`, `Medium` iff `30 < s ≤ 70` and `Low` iff
`s ≤ 30`, so the boundary scores 70 and 30 fall in the lower bands. -/
theorem c1_risk_classifier_thresholds (s : ℤ) :
    (((riskBadgeLabel (some (s : ℚ))).label = "High" ↔ 70 < s) ∧
     ((riskBadgeLabel (some (s : ℚ))).label = "Medium" ↔ 30 < s ∧ s ≤ 70) ∧
     ((riskBadgeLabel (some (s : ℚ))).label = "Low" ↔ s ≤ 30)) ∧
    ((formatRisk (some (.num (s : ℚ))) = "High" ↔ 70 < s) ∧
     (formatRisk (some (.num (s : ℚ))) = "Medium" ↔ 30 < s ∧ s ≤ 70) ∧
     (formatRisk (some (.num (s : ℚ))) = "Low" ↔ s ≤ 30)) ∧
    ((fraudDashboardRisk (s : ℚ) = "High" ↔ 70 < s) ∧
     (fraudDashboardRisk (s : ℚ) = "Medium" ↔ 30 < s ∧ s ≤ 70) ∧
     (fraudDashboardRisk (s : ℚ) = "Low" ↔ s ≤ 30)) := by
  have hc70 : ((70 : ℚ) < (s : ℚ)) ↔ ((70 : ℤ) < s) := by exact_mod_cast Iff.rfl
  have hc30 : ((30 : ℚ) < (s : ℚ)) ↔ ((30 : ℤ) < s) := by exact_mod_cast Iff.rfl
  have hc71 : ((71 : ℚ) ≤ (s : ℚ)) ↔ ((70 : ℤ) < s) := by
    rw [show ((71 : ℚ) ≤ (s : ℚ)) ↔ ((71 : ℤ) ≤ s) from by exact_mod_cast Iff.rfl]
    omega
  have hc31 : ((31 : ℚ) ≤ (s : ℚ)) ↔ ((30 : ℤ) < s) := by
    rw [show ((31 : ℚ) ≤ (s : ℚ)) ↔ ((31 : ℤ) ≤ s) from by exact_mod_cast Iff.rfl]
    omega
  by_cases h1 : (70 : ℤ) < s <;> by_cases h2 : (30 : ℤ) < s
  · simp [riskBadgeLabel, formatRisk, fraudDashboardRisk, hc70, hc30, hc71, hc31, h1, h2]
  · exact absurd (by omega : (30 : ℤ) < s) h2
  · simp [riskBadgeLabel, formatRisk, fraudDashboardRisk, hc70, hc30, hc71, hc31, h1, h2]
    all_goals omega
  · simp [riskBadgeLabel, formatRisk, fraudDashboardRisk, hc70, hc30, hc71, hc31, h1, h2]
    all_goals omega

/-- C2: `extractConfidence` realizes the spec's normalization — the first
confidence-like field, with absent, empty or non-numeric values falling back
to the three-tier fraud-score mapping (90 / 75 / 60), fractional values in
(0,1] scaled by 100, the result clamped to [0,100], a still-degenerate
result ≤ 1 replaced by the same fallback, and the final value rounded — and
in particular maps `{fraud_score: 80}` to 90, `{confidence: 0.85}` to 85 and
`{confidence: 0.005, fraud_score: 80}` to 90. -/
theorem c2_confidence_normalizer :
    (∀ r : KycRecord, extractConfidence r = specConfidence r) ∧
    extractConfidence confFsRec = 90 ∧
    extractConfidence confFracRec = 85 ∧
    extractConfidence confDegenRec = 90 := by
  refine ⟨fun r => ?_, by decide, ?_, ?_⟩
  · unfold extractConfidence specConfidence
    cases hc : confChain r with
    | none => rfl
    | some v =>
      by_cases hv : v = JsVal.str ""
      · simp [hv]
      · cases hn : jsToNum v <;> simp [hv, hn]
  · simp only [extractConfidence, confFracRec, confChain, confTier, fraudScoreNum, fsChain,
      KycRecord.empty, KycRecord.fraudR, FraudResult.empty, jsToNum]
    norm_num
    all_goals simp
  · simp only [extractConfidence, confDegenRec, confChain, confTier, fraudScoreNum, fsChain,
      KycRecord.empty, KycRecord.fraudR, FraudResult.empty, jsToNum]
    norm_num

/-- C3: for every record whose `flags_text` is absent, falsy or a string (see
C9 for the remaining case), `buildRiskReason` returns exactly the spec's
precedence result — a non-empty trimmed `flags_text` verbatim unless it is a
bare risk label, else the fixed sentences of the recognized codes in fixed
order without repetition, else the non-empty free-text fields joined with
", ", else the fixed default — and the result is never the empty string. -/
theorem c3_reason_builder (r : KycRecord) (h : flagsTextOkB r = true) :
    buildRiskReason r = some (specRiskReason r) ∧ specRiskReason r ≠ "" := by
  unfold buildRiskReason specRiskReason
  unfold flagsTextOkB at h
  cases hft : (r.fraudR).flags_text with
  | none => simpa [hft, rest_eq] using fallback_ne r
  | some v =>
    cases v with
    | num q =>
      rw [hft] at h
      have hq : q = 0 := by simpa using h
      subst hq
      simpa [hft, jsTruthy, rest_eq] using fallback_ne r
    | str s =>
      by_cases hs0 : s = ""
      · subst hs0
        simpa [hft, jsTruthy, rest_eq, show trimWs "" = "" from rfl] using fallback_ne r
      · by_cases htr : trimWs s = ""
        · simpa [hft, jsTruthy, hs0, jsTrim, htr, rest_eq] using fallback_ne r
        · by_cases hrw : lowerStr (trimWs s) ∈ riskWords
          · simpa [hft, jsTruthy, hs0, jsTrim, htr, hrw, rest_eq] using fallback_ne r
          · simp [hft, jsTruthy, hs0, jsTrim, htr, hrw, rest_eq]

/-- C3 witness: the record with `flags_text: "high"` and
`flags: ["duplicate_pan"]` satisfies the hypothesis, and the builder skips
the risk label and returns the duplicate-PAN sentence. -/
theorem c3_reason_builder_witness :
    flagsTextOkB wFlagRec = true ∧
    buildRiskReason wFlagRec = some (specRiskReason wFlagRec) ∧
    specRiskReason wFlagRec = "Duplicate PAN detected" ∧
    specRiskReason wFlagRec ≠ "" := by
  have h := c3_reason_builder wFlagRec (by decide)
  exact ⟨by decide, h.1, by decide, h.2⟩

/-- C4 counterexample: the claim asserts that an input with fewer than 8
digits is returned unmodified, but on the empty string the masker returns
the placeholder `"-"`, not the input. -/
theorem c4_mask_counterexample :
    maskAadhaar "" ≠ "" ∧ maskAadhaar "" = "-" ∧ maskPan "" = "-" := by decide

/-- C4 (amended): for every non-empty input the national-ID masker strips
non-digits and returns the input unmodified below 8 digits, else
`first4-XXXX-last4` of the digits; the tax-ID masker strips whitespace and
returns the input unmodified unless exactly 10 characters remain, else
`first5-XX+last2`; the four spec examples hold; empty input yields the
placeholder `"-"`. -/
theorem c4_maskers_amended (n p : String) (hn : n ≠ "") (hp : p ≠ "") :
    maskAadhaar n = specMaskNational n ∧ maskPan p = specMaskTax p ∧
    maskAadhaar "123456789012" = "1234-XXXX-9012" ∧
    maskAadhaar "1234567" = "1234567" ∧
    maskPan "ABCDE1234F" = "ABCDE-XX4F" ∧
    maskPan "ABC123" = "ABC123" ∧
    maskAadhaar "" = "-" ∧ maskPan "" = "-" := by
  refine ⟨?_, ?_, by decide, by decide, by decide, by decide, by decide, by decide⟩
  · simp [maskAadhaar, hn, specMaskNational]
  · by_cases h : strLen (stripWs p) = 10 <;> simp [maskPan, specMaskTax, hp, h]

/-- C4 witness: the amended statement applied at the concrete too-short and
wrong-length inputs of the spec. -/
theorem c4_maskers_witness :
    maskAadhaar "1234567" = specMaskNational "1234567" ∧
    maskPan "ABC123" = specMaskTax "ABC123" := by
  have h := c4_maskers_amended "1234567" "ABC123" (by decide) (by decide)
  exact ⟨h.1, h.2.1⟩

/-- C5 counterexample: the claim asserts that no masking function ever
exposes characters outside the visible prefix/suffix, but `maskPan` returns
an 11-character identifier unmodified, exposing its middle characters
(position 5 holds `F`, outside the first 5 and last 2). -/
theorem c5_mask_exposure_counterexample :
    ¬ maskedWithin 5 2 (stripWs "ABCDEFGHIJK") (maskPan "ABCDEFGHIJK") := by decide

/-- C5 (amended): the generic list-view masker and the upload-page maskers
never expose a character outside the visible prefix/suffix windows for any
input; the strict Aadhaar and PAN maskers guarantee this only when the
sanitized identifier meets their length requirement (at least 8 digits,
resp. exactly 10 characters) — otherwise they return the input unmodified. -/
theorem c5_maskers_amended :
    (∀ s f b, s ≠ "" → maskedWithin f b (stripWs s) (maskNumber s f b)) ∧
    (∀ n, maskedWithin 4 4 n (maskAadhaarUI n)) ∧
    (∀ p, maskedWithin 5 2 p (maskPanUI p)) ∧
    (∀ n, 8 ≤ strLen (digitsOnly n) → maskedWithin 4 4 (digitsOnly n) (maskAadhaar n)) ∧
    (∀ p, strLen (stripWs p) = 10 → maskedWithin 5 2 (stripWs p) (maskPan p)) :=
  ⟨fun s f b hs => maskNumber_within s f b hs, maskAadhaarUI_within, maskPanUI_within,
   maskAadhaar_within, maskPan_within⟩

/-- C5 witness: the amended statement applied at concrete identifiers. -/
theorem c5_maskers_witness :
    maskedWithin 4 4 (stripWs "1234 5678 9012") (maskNumber "1234 5678 9012" 4 4) ∧
    maskedWithin 4 4 (digitsOnly "123456789012") (maskAadhaar "123456789012") ∧
    maskedWithin 5 2 (stripWs "ABCDE1234F") (maskPan "ABCDE1234F") :=
  ⟨c5_maskers_amended.1 "1234 5678 9012" 4 4 (by decide),
   c5_maskers_amended.2.2.2.1 "123456789012" (by decide),
   c5_maskers_amended.2.2.2.2 "ABCDE1234F" (by decide)⟩

/-- C6: on every parseable timestamp both formatters render exactly the
fixed `DD/MM/YYYY hh:mm:ss AM|PM` format with two-digit zero-padded
components, 24-to-12-hour conversion and hour 0 shown as 12; the local time
2025-12-09 17:33:21 renders as `09/12/2025 05:33:21 PM`, and a midnight
time shows hour 12 with `AM`. -/
theorem c6_timestamp_format :
    (∀ d : DateParts, formatExact (.parsed d) = renderTimestamp d) ∧
    (∀ d : DateParts, formatDate (.parsed d) = renderTimestamp d) ∧
    formatExact (.parsed ⟨2025, 11, 9, 17, 33, 21⟩) = "09/12/2025 05:33:21 PM" ∧
    formatDate (.parsed ⟨2025, 11, 9, 17, 33, 21⟩) = "09/12/2025 05:33:21 PM" ∧
    formatExact (.parsed ⟨2026, 0, 5, 0, 7, 9⟩) = "05/01/2026 12:07:09 AM" :=
  ⟨fun _ => rfl, fun _ => rfl, by decide, by decide, by decide⟩

/-- C7 counterexample: the claim asserts that an unparseable non-empty input
yields the em-dash, but `formatExact` echoes the raw input unchanged. -/
theorem c7_invalid_timestamp_counterexample :
    formatExact (TsInput.unparseable "not-a-date") ≠ "—" ∧
    formatExact (TsInput.unparseable "not-a-date") = "not-a-date" := by decide

/-- C7 (amended): a missing (falsy) timestamp yields the em-dash at both
formatters, but an unparseable non-empty input does not — `formatExact`
echoes the raw input and `formatDate` renders the fixed NaN placeholder. -/
theorem c7_timestamp_fallback_amended :
    (formatExact .missing = "—") ∧
    (∀ raw, formatExact (.unparseable raw) = raw) ∧
    (formatDate .missing = "—") ∧
    (∀ raw, formatDate (.unparseable raw) = "NaN/NaN/NaN 12:NaN:NaN AM") :=
  ⟨rfl, fun _ => rfl, rfl, fun _ => rfl⟩

/-- C8: the aggregate fallback counts each risk bucket with the numeric
classifier, splits verified (score ≤ 30) from unverified (score > 30),
returns the rounded arithmetic mean of the scores with 0 (not NaN) on an
empty list, agrees with `computeAvg`, and on scores [10, 50, 90] yields
buckets {Low: 1, Medium: 1, High: 1} and mean 50. -/
theorem c8_aggregate_fallback :
    (∀ l : List (Option ℚ),
      (computeFallback l).high = l.countP (fun o => decide ((riskBadgeLabel (some (fsOrZero o))).label = "High")) ∧
      (computeFallback l).medium = l.countP (fun o => decide ((riskBadgeLabel (some (fsOrZero o))).label = "Medium")) ∧
      (computeFallback l).low = l.countP (fun o => decide ((riskBadgeLabel (some (fsOrZero o))).label = "Low")) ∧
      (computeFallback l).verified = l.countP (fun o => decide (fsOrZero o ≤ 30)) ∧
      (computeFallback l).unverified = l.countP (fun o => decide (30 < fsOrZero o)) ∧
      (computeFallback l).riskScore = (if l = [] then 0 else round ((l.map fsOrZero).sum / (l.length : ℚ))) ∧
      computeAvg l = (computeFallback l).riskScore) ∧
    (computeFallback [some 10, some 50, some 90]).low = 1 ∧
    (computeFallback [some 10, some 50, some 90]).medium = 1 ∧
    (computeFallback [some 10, some 50, some 90]).high = 1 ∧
    (computeFallback [some 10, some 50, some 90]).riskScore = 50 ∧
    (computeFallback []).riskScore = 0 := by
  have hmain : ∀ l : List (Option ℚ),
      (computeFallback l).high = l.countP (fun o => decide ((riskBadgeLabel (some (fsOrZero o))).label = "High")) ∧
      (computeFallback l).medium = l.countP (fun o => decide ((riskBadgeLabel (some (fsOrZero o))).label = "Medium")) ∧
      (computeFallback l).low = l.countP (fun o => decide ((riskBadgeLabel (some (fsOrZero o))).label = "Low")) ∧
      (computeFallback l).verified = l.countP (fun o => decide (fsOrZero o ≤ 30)) ∧
      (computeFallback l).unverified = l.countP (fun o => decide (30 < fsOrZero o)) ∧
      (computeFallback l).riskScore = (if l = [] then 0 else round ((l.map fsOrZero).sum / (l.length : ℚ))) ∧
      computeAvg l = (computeFallback l).riskScore := by
    intro l
    obtain ⟨h1, h2, h3, h4, h5⟩ := fallback_counts l ⟨0, 0, 0, 0, 0⟩
    have e1 : (fun o : Option ℚ => decide ((riskBadgeLabel (some (fsOrZero o))).label = "High")) =
        (fun o => decide (70 < fsOrZero o)) := by
      funext o
      exact decide_eq_decide.mpr (riskLabel_high_iff _)
    have e2 : (fun o : Option ℚ => decide ((riskBadgeLabel (some (fsOrZero o))).label = "Medium")) =
        (fun o => decide (30 < fsOrZero o ∧ fsOrZero o ≤ 70)) := by
      funext o
      exact decide_eq_decide.mpr (riskLabel_medium_iff _)
    have e3 : (fun o : Option ℚ => decide ((riskBadgeLabel (some (fsOrZero o))).label = "Low")) =
        (fun o => decide (fsOrZero o ≤ 30)) := by
      funext o
      exact decide_eq_decide.mpr (riskLabel_low_iff _)
    refine ⟨?_, ?_, ?_, ?_, ?_, ?_, ?_⟩
    · rw [e1]
      simpa [computeFallback] using h1
    · rw [e2]
      simpa [computeFallback] using h2
    · rw [e3]
      simpa [computeFallback] using h3
    · simpa [computeFallback] using h4
    · simpa [computeFallback] using h5
    · simp [computeFallback, foldl_add_fs, List.length_eq_zero]
    · simp [computeFallback, computeAvg]
  refine ⟨hmain, ?_, ?_, ?_, ?_, by simp [computeFallback]⟩
  · simp [computeFallback, fallbackStep, fsOrZero]
    norm_num
  · simp [computeFallback, fallbackStep, fsOrZero]
    norm_num
  · simp [computeFallback, fallbackStep, fsOrZero]
    norm_num
  · simp [computeFallback, fallbackStep, fsOrZero]
    norm_num

/-- C9: contrary to the totality policy, the reason builder is not total —
on a record whose `flags_text` is the truthy non-string `5`,
`buildRiskReason` evaluates `fraud.flags_text.trim()` and throws a
`TypeError` (modelled by `none`) instead of returning a defined output. -/
theorem c9_flags_text_throws : buildRiskReason badFlagsTextRec = none := by decide

/-- C10: an approve/reject/flag update maps only the records whose `_id`
equals the acted-on id to the corresponding status (`Approved`, `Rejected`,
`Flagged`), leaves every other record unchanged, changes no field but
`status` on the matched record, preserves the list length, and the admin
dashboard updaters are the same map. -/
theorem c10_action_frame (l : List AdminRecord) (id action : String) (i : ℕ)
    (r rnew : AdminRecord) (hr : l[i]? = some r)
    (hrnew : (doActionUpdate l id action)[i]? = some rnew) :
    (doActionUpdate l id action).length = l.length ∧
    (r._id ≠ id → rnew = r) ∧
    (r._id = id → rnew.status = some (actionStatus action) ∧ rnew._id = r._id ∧
      rnew.user_name = r.user_name ∧ rnew.aadhaar_masked = r.aadhaar_masked ∧
      rnew.pan_masked = r.pan_masked ∧ rnew.fraud_result = r.fraud_result ∧
      rnew.timestamp = r.timestamp) ∧
    actionStatus "approve" = "Approved" ∧ actionStatus "reject" = "Rejected" ∧
    actionStatus "flag" = "Flagged" ∧
    approveUpdate l id = doActionUpdate l id "approve" ∧
    rejectUpdate l id = doActionUpdate l id "reject" := by
  rw [doActionUpdate, List.getElem?_map, hr] at hrnew
  have hrnew2 : (if r._id = id then { r with status := some (actionStatus action) } else r) = rnew :=
    Option.some_injective _ hrnew
  refine ⟨List.length_map _ _, ?_, ?_, rfl, rfl, rfl, rfl, rfl⟩
  · intro hne
    rw [if_neg hne] at hrnew2
    exact hrnew2.symm
  · intro heq
    rw [if_pos heq] at hrnew2
    subst hrnew2
    exact ⟨rfl, rfl, rfl, rfl, rfl, rfl, rfl⟩

/-- C10 witness: applying the frame theorem to a concrete two-record list
approving id `"a"`. -/
theorem c10_action_frame_witness :
    (doActionUpdate [wrec1, wrec2] "a" "approve").length = 2 ∧
    wrec1new.status = some (actionStatus "approve") := by
  have h := c10_action_frame [wrec1, wrec2] "a" "approve" 0 wrec1 wrec1new (by rfl) (by decide)
  exact ⟨h.1, (h.2.2.1 rfl).1⟩
